import Mathlib

/-!
Verification of the questionnaire scoring engine of the student_profile
repository (Holland/RIASEC and Gardner multiple-intelligence inventories).

The Python source is shallowly embedded below:

* submitted questionnaire answers (the cleaned_data dict of the form) become
  an association list from question index to integer response value;
* students/forms.py: HollandQuestionnaireForm.calculate_holland_scores and
  GardnerQuestionnaireForm.calculate_gardner_scores become pure functions
  producing the per-category percentage list in dict insertion order;
* the float expression round((total / max) * 100) is modelled exactly as
  the round-half-to-even rounding of the integer fraction (total * 100) /
  max (the semantics of the round builtin of the host language on these
  magnitudes, where the double-precision error, below 1e-12, never reaches
  the distance 1/18 separating the exact values from a rounding boundary);
* students/views.py: the ranking step sorted(scores.items(),
  key=lambda x: x[1], reverse=True) is a stable descending sort; it is
  embedded as a stable insertion sort, whose sortedness, stability and
  permutation properties are proved below (a stable sort is uniquely
  determined by those properties);
* students/models.py: the HollandTest properties highest_score_type and
  holland_code become functions of the six stored integer scores.
-/

/-- Python round builtin applied to the exact value of the fraction n / d
(for a positive denominator d): round to the nearest integer, ties to the
even neighbour (round-half-to-even), computed from the Euclidean quotient
and remainder. -/
def pyRoundDiv (n d : ℤ) : ℤ :=
  if 2 * (n % d) < d then n / d
  else if d < 2 * (n % d) then n / d + 1
  else if (n / d) % 2 = 0 then n / d else n / d + 1

/-- Rounding as worded by the specification: nearest integer, ties rounding
away from zero (for the nonnegative values at hand: ties upward). -/
def roundHalfAwayFromZero (q : ℚ) : ℤ :=
  if 0 ≤ q then ⌊q + 1/2⌋ else -⌊-q + 1/2⌋

/-- A submitted response set: the cleaned_data mapping from question index
to integer response value, as an association list. -/
abbrev Responses := List (ℕ × ℕ)

/-- cleaned_data.get(q, 1): the value stored for question q, defaulting to
1 when the question is absent (students/forms.py line 300). -/
def getResp (r : Responses) (q : ℕ) : ℕ :=
  (r.lookup q).getD 1

/-- question_mapping of calculate_holland_scores: the six RIASEC categories
with their question indices, in declaration order. -/
def hollandMapping : List (String × List ℕ) :=
  [("R", [1, 2, 3, 4, 5, 6]),
   ("I", [7, 8, 9, 10, 11, 12]),
   ("A", [13, 14, 15, 16, 17, 18]),
   ("S", [19, 20, 21, 22, 23, 24]),
   ("E", [25, 26, 27, 28, 29, 30]),
   ("C", [31, 32, 33, 34, 35, 36])]

/-- The total_score accumulation loop of calculate_holland_scores. -/
def hollandTotal (r : Responses) (qs : List ℕ) : ℕ :=
  qs.foldl (fun acc q => acc + getResp r q) 0

/-- percentage_score = (total_score / 30) * 100, rounded
(students/forms.py lines 303-305). -/
def hollandPercent (total : ℕ) : ℤ :=
  pyRoundDiv ((total : ℤ) * 100) 30

/-- HollandQuestionnaireForm.calculate_holland_scores: the scores dict in
insertion order R, I, A, S, E, C. -/
def calculate_holland_scores (r : Responses) : List (String × ℤ) :=
  hollandMapping.map (fun p => (p.1, hollandPercent (hollandTotal r p.2)))

/-- The 24 Gardner questions with the intelligence_type attribute attached
to each form field, in field declaration order (students/forms.py,
GardnerQuestionnaireForm question list). -/
def gardnerQuestionTypes : List (ℕ × String) :=
  [(1, "linguistic"), (2, "linguistic"), (3, "linguistic"),
   (4, "logical"), (5, "logical"), (6, "logical"),
   (7, "spatial"), (8, "spatial"), (9, "spatial"),
   (10, "bodily"), (11, "bodily"), (12, "bodily"),
   (13, "musical"), (14, "musical"), (15, "musical"),
   (16, "interpersonal"), (17, "interpersonal"), (18, "interpersonal"),
   (19, "intrapersonal"), (20, "intrapersonal"), (21, "intrapersonal"),
   (22, "naturalist"), (23, "naturalist"), (24, "naturalist")]

/-- intelligence_types of calculate_gardner_scores: the iteration order of
the scores dict. -/
def intelligence_types : List String :=
  ["linguistic", "logical", "spatial", "bodily", "musical",
   "interpersonal", "intrapersonal", "naturalist"]

/-- The per-type raw sum of calculate_gardner_scores: a question present in
cleaned_data adds its value, an absent question adds nothing. -/
def gardnerTypeSum (r : Responses) (t : String) : ℕ :=
  (gardnerQuestionTypes.filter (fun p => p.2 == t)).foldl
    (fun acc p => acc + ((r.lookup p.1).getD 0)) 0

/-- type_counts of calculate_gardner_scores: how many form fields carry the
given intelligence type. -/
def gardnerTypeCount (t : String) : ℕ :=
  (gardnerQuestionTypes.filter (fun p => p.2 == t)).length

/-- The percentage step of calculate_gardner_scores: round((total /
max_possible) * 100) when max_possible is positive, otherwise 0
(students/forms.py lines 398-402). -/
def gardnerNormalize (total maxPossible : ℕ) : ℤ :=
  if 0 < maxPossible then pyRoundDiv ((total : ℤ) * 100) (maxPossible : ℤ) else 0

/-- GardnerQuestionnaireForm.calculate_gardner_scores: percentage_scores in
intelligence_types order, with max_possible = type_counts * 5. -/
def calculate_gardner_scores (r : Responses) : List (String × ℤ) :=
  intelligence_types.map
    (fun t => (t, gardnerNormalize (gardnerTypeSum r t) (gardnerTypeCount t * 5)))

/-- One step of the stable descending sort: insert a score pair into an
already sorted list, placing it before the first entry whose value does not
exceed it (so an earlier entry stays ahead of later entries of equal
value). -/
def insertDesc {α : Type} (a : α × ℤ) : List (α × ℤ) → List (α × ℤ)
  | [] => [a]
  | b :: l => if b.2 ≤ a.2 then a :: b :: l else b :: insertDesc a l

/-- sorted(scores.items(), key=lambda x: x[1], reverse=True): the stable
descending-by-value sort used by both questionnaire submission views. -/
def sortScoresDesc {α : Type} : List (α × ℤ) → List (α × ℤ)
  | [] => []
  | a :: l => insertDesc a (sortScoresDesc l)

/-- primary = sorted_scores[0][0] if sorted_scores else fallback
(students/views.py lines 325 and 387). -/
def selectPrimary {α : Type} (fallback : α) (scores : List (α × ℤ)) : α :=
  match sortScoresDesc scores with
  | [] => fallback
  | p :: _ => p.1

/-- secondary = sorted_scores[1][0] if len(sorted_scores) > 1 else fallback
(students/views.py lines 326 and 388). -/
def selectSecondary {α : Type} (fallback : α) (scores : List (α × ℤ)) : α :=
  match sortScoresDesc scores with
  | _ :: q :: _ => q.1
  | _ => fallback

/-- The scoring part of views.submit_holland_questionnaire: the score list
and the primary and secondary types, with the fallback labels R and I of
the source. -/
def submit_holland_questionnaire (r : Responses) :
    List (String × ℤ) × String × String :=
  let scores := calculate_holland_scores r
  (scores, selectPrimary "R" scores, selectSecondary "I" scores)

/-- The scoring part of views.submit_gardner_questionnaire, with the
fallback labels linguistic and logical of the source. -/
def submit_gardner_questionnaire (r : Responses) :
    List (String × ℤ) × String × String :=
  let scores := calculate_gardner_scores r
  (scores, selectPrimary "linguistic" scores, selectSecondary "logical" scores)

/-- Python max over a nonempty sequence with a key function: left fold that
keeps the first element encountered among equal keys. -/
def pyMax {α : Type} (x : α × ℤ) (l : List (α × ℤ)) : α × ℤ :=
  l.foldl (fun best y => if best.2 < y.2 then y else best) x

/-- The scores dict built by both HollandTest properties, in its insertion
order R, I, A, S, E, C (single-character Python strings are modelled as
characters). -/
def hollandScorePairs (r i a s e c : ℤ) : List (Char × ℤ) :=
  [('R', r), ('I', i), ('A', a), ('S', s), ('E', e), ('C', c)]

/-- HollandTest.highest_score_type: max(scores, key=scores.get)
(students/models.py lines 129-139). -/
def highest_score_type (r i a s e c : ℤ) : Char :=
  (pyMax ('R', r) [('I', i), ('A', a), ('S', s), ('E', e), ('C', c)]).1

/-- HollandTest.holland_code: the labels of the three highest entries of
the stable descending sort, joined (students/models.py lines 141-152). -/
def holland_code (r i a s e c : ℤ) : String :=
  String.mk (((sortScoresDesc (hollandScorePairs r i a s e c)).take 3).map Prod.fst)

/-- A complete Holland submission: every question 1..36 present with a
value on the 1..5 scale (the form declares each of the 36 fields required
with choices 1..5, so exactly these submissions reach the scorer). -/
def isValidHolland (r : Responses) : Bool :=
  (List.range' 1 36).all (fun q =>
    match r.lookup q with
    | some v => decide (1 ≤ v ∧ v ≤ 5)
    | none => false)

/-- A complete Gardner-24 submission: every question 1..24 present with a
value on the 1..5 scale. -/
def isValidGardner (r : Responses) : Bool :=
  (List.range' 1 24).all (fun q =>
    match r.lookup q with
    | some v => decide (1 ≤ v ∧ v ≤ 5)
    | none => false)

/-- The submitted value of a question as the specification reads it: the
response recorded for that index (0 when absent; on complete submissions
every index is present, so the default never matters there). -/
def respValue (r : Responses) (q : ℕ) : ℕ :=
  (r.lookup q).getD 0

/-- The Holland percentages as worded by the claim: for each category,
round((sum of that category's six responses / 30) * 100), questions 1-6 in
R, 7-12 in I, 13-18 in A, 19-24 in S, 25-30 in E, 31-36 in C. -/
def hollandSpecScores (r : Responses) : List (String × ℤ) :=
  [("R", round (((respValue r 1 + respValue r 2 + respValue r 3 +
      respValue r 4 + respValue r 5 + respValue r 6 : ℕ) : ℚ) / 30 * 100)),
   ("I", round (((respValue r 7 + respValue r 8 + respValue r 9 +
      respValue r 10 + respValue r 11 + respValue r 12 : ℕ) : ℚ) / 30 * 100)),
   ("A", round (((respValue r 13 + respValue r 14 + respValue r 15 +
      respValue r 16 + respValue r 17 + respValue r 18 : ℕ) : ℚ) / 30 * 100)),
   ("S", round (((respValue r 19 + respValue r 20 + respValue r 21 +
      respValue r 22 + respValue r 23 + respValue r 24 : ℕ) : ℚ) / 30 * 100)),
   ("E", round (((respValue r 25 + respValue r 26 + respValue r 27 +
      respValue r 28 + respValue r 29 + respValue r 30 : ℕ) : ℚ) / 30 * 100)),
   ("C", round (((respValue r 31 + respValue r 32 + respValue r 33 +
      respValue r 34 + respValue r 35 + respValue r 36 : ℕ) : ℚ) / 30 * 100))]

/-- The Gardner-24 percentages as worded by the claim: for each category,
round((sum of that category's three responses / 15) * 100), with the
question groups of the form declaration. -/
def gardnerSpecScores (r : Responses) : List (String × ℤ) :=
  [("linguistic",
    round (((respValue r 1 + respValue r 2 + respValue r 3 : ℕ) : ℚ) / 15 * 100)),
   ("logical",
    round (((respValue r 4 + respValue r 5 + respValue r 6 : ℕ) : ℚ) / 15 * 100)),
   ("spatial",
    round (((respValue r 7 + respValue r 8 + respValue r 9 : ℕ) : ℚ) / 15 * 100)),
   ("bodily",
    round (((respValue r 10 + respValue r 11 + respValue r 12 : ℕ) : ℚ) / 15 * 100)),
   ("musical",
    round (((respValue r 13 + respValue r 14 + respValue r 15 : ℕ) : ℚ) / 15 * 100)),
   ("interpersonal",
    round (((respValue r 16 + respValue r 17 + respValue r 18 : ℕ) : ℚ) / 15 * 100)),
   ("intrapersonal",
    round (((respValue r 19 + respValue r 20 + respValue r 21 : ℕ) : ℚ) / 15 * 100)),
   ("naturalist",
    round (((respValue r 22 + respValue r 23 + respValue r 24 : ℕ) : ℚ) / 15 * 100))]

/-- Modelled from the spec: the question-to-category map of the 41-question
Gardner variant (views.ss_career_discovery, declared in students/urls.py
but absent from the sources). The spec fixes the eight categories in this
order with sizes 5, 5, 6, 5, 4, 5, 5, 6, the 0-3 response scale, and the
linguistic question indices 1, 10, 17, 25, 34; the remaining 36 indices
are assigned to the remaining categories in declaration order (the spec
does not list them; no claim depends on which non-linguistic category a
given remaining index lands in). -/
def gardner41Categories : List (String × List ℕ) :=
  [("linguistic", [1, 10, 17, 25, 34]),
   ("musical", [2, 3, 4, 5, 6]),
   ("bodily", [7, 8, 9, 11, 12, 13]),
   ("interpersonal", [14, 15, 16, 18, 19]),
   ("logical", [20, 21, 22, 23]),
   ("naturalist", [24, 26, 27, 28, 29]),
   ("spatial", [30, 31, 32, 33, 35]),
   ("intrapersonal", [36, 37, 38, 39, 40, 41])]

/-- Modelled from the spec: the raw category sum of the Gardner-41 scorer
(responses treated as raw integers, absent answers contributing 0). -/
def gardner41Sum (r : Responses) (qs : List ℕ) : ℕ :=
  (qs.map (fun q => (r.lookup q).getD 0)).sum

/-- Modelled from the spec: the Gardner-41 percentage normalizer,
round((sum / max_possible) * 100) with the rounding of the host language. -/
def gardner41Percent (total maxPossible : ℕ) : ℤ :=
  pyRoundDiv ((total : ℤ) * 100) (maxPossible : ℤ)

/-- Modelled from the spec: the Gardner-41 scorer, per-category max
max_possible = size * 3. -/
def gardner41Scores (r : Responses) : List (String × ℤ) :=
  gardner41Categories.map
    (fun p => (p.1, gardner41Percent (gardner41Sum r p.2) (p.2.length * 3)))

/-- A block of consecutive questions all answered with the same value. -/
def constResponses (start len v : ℕ) : Responses :=
  (List.range' start len).map (fun q => (q, v))

/-- The end-to-end Holland scenario input: questions 1-6 answered 5, all
others answered 1. -/
def hollandRMaxInput : Responses :=
  constResponses 1 6 5 ++ constResponses 7 30 1

/-- A Holland submission with question 1 absent (questions 2-6 answered 5,
questions 7-36 answered 1). -/
def hollandMissingQ1 : Responses :=
  constResponses 2 5 5 ++ constResponses 7 30 1

/-- A complete Holland submission with every answer 3. -/
def hollandAll3 : Responses := constResponses 1 36 3

/-- A complete Gardner-24 submission with every answer 3. -/
def gardnerAll3 : Responses := constResponses 1 24 3

/-- A complete Holland submission with questions 1-6 answered 5 and the
rest answered 3 (distinct category percentages). -/
def hollandC4Input : Responses :=
  constResponses 1 6 5 ++ constResponses 7 30 3

/-- The end-to-end Gardner-41 scenario input: the linguistic questions 1,
10, 17, 25, 34 answered 3, the other 36 questions answered 0. -/
def gardner41LinInput : Responses :=
  (List.range' 1 41).map (fun q =>
    (q, if q == 1 || q == 10 || q == 17 || q == 25 || q == 34 then 3 else 0))

/-- The completion of a partial Holland submission under the defaults the
scorer applies: every question 1..36 mapped to the value the scorer reads
for it (the stored value, or 1 when absent). -/
def hollandDefaulted (r : Responses) : Responses :=
  (List.range' 1 36).map (fun q => (q, getResp r q))

/-- The completion of a partial Gardner-24 submission under the defaults
the scorer applies: every question 1..24 mapped to the stored value, or 0
when absent. -/
def gardnerDefaulted (r : Responses) : Responses :=
  (List.range' 1 24).map (fun q => (q, (r.lookup q).getD 0))


/-! ### Rounding lemmas -/

theorem round_div30 (s : ℕ) : round ((s : ℚ) / 30 * 100) = (200 * (s : ℤ) + 30) / 60 := by
  rw [round_eq, show (s : ℚ) / 30 * 100 + 1/2 =
    ((200 * (s : ℤ) + 30 : ℤ) : ℚ) / ((60 : ℕ) : ℚ) by push_cast; ring]
  exact Rat.floor_intCast_div_natCast _ _

theorem round_div15 (s : ℕ) : round ((s : ℚ) / 15 * 100) = (200 * (s : ℤ) + 15) / 30 := by
  rw [round_eq, show (s : ℚ) / 15 * 100 + 1/2 =
    ((200 * (s : ℤ) + 15 : ℤ) : ℚ) / ((30 : ℕ) : ℚ) by push_cast; ring]
  exact Rat.floor_intCast_div_natCast _ _

theorem round_div18 (s : ℕ) : round ((s : ℚ) / 18 * 100) = (200 * (s : ℤ) + 18) / 36 := by
  rw [round_eq, show (s : ℚ) / 18 * 100 + 1/2 =
    ((200 * (s : ℤ) + 18 : ℤ) : ℚ) / ((36 : ℕ) : ℚ) by push_cast; ring]
  exact Rat.floor_intCast_div_natCast _ _

theorem round_div12 (s : ℕ) : round ((s : ℚ) / 12 * 100) = (200 * (s : ℤ) + 12) / 24 := by
  rw [round_eq, show (s : ℚ) / 12 * 100 + 1/2 =
    ((200 * (s : ℤ) + 12 : ℤ) : ℚ) / ((24 : ℕ) : ℚ) by push_cast; ring]
  exact Rat.floor_intCast_div_natCast _ _

theorem hollandPercent_eq_round (s : ℕ) :
    hollandPercent s = round ((s : ℚ) / 30 * 100) := by
  rw [round_div30]
  unfold hollandPercent pyRoundDiv
  split_ifs <;> omega

theorem gardnerNormalize_fifteen_eq_round (s : ℕ) :
    gardnerNormalize s 15 = round ((s : ℚ) / 15 * 100) := by
  rw [round_div15]
  unfold gardnerNormalize pyRoundDiv
  norm_num
  split_ifs <;> omega

theorem gardner41Percent_eq_round_fifteen (s : ℕ) :
    gardner41Percent s 15 = round ((s : ℚ) / 15 * 100) := by
  rw [round_div15]
  unfold gardner41Percent pyRoundDiv
  norm_num
  split_ifs <;> omega

theorem gardner41Percent_eq_round_eighteen (s : ℕ) :
    gardner41Percent s 18 = round ((s : ℚ) / 18 * 100) := by
  rw [round_div18]
  unfold gardner41Percent pyRoundDiv
  norm_num
  split_ifs <;> omega

theorem gardner41Percent_eq_round_twelve (s : ℕ) :
    gardner41Percent s 12 = round ((s : ℚ) / 12 * 100) := by
  rw [round_div12]
  unfold gardner41Percent pyRoundDiv
  norm_num
  split_ifs <;> omega

theorem roundHalfAwayFromZero_of_nonneg (q : ℚ) (h : 0 ≤ q) :
    roundHalfAwayFromZero q = round q := by
  rw [roundHalfAwayFromZero, if_pos h, round_eq]

theorem hollandPercent_range (t : ℕ) (h : t ≤ 30) :
    0 ≤ hollandPercent t ∧ hollandPercent t ≤ 100 := by
  unfold hollandPercent pyRoundDiv
  split_ifs <;> omega

/-! ### Properties of the stable descending sort and of pyMax -/

theorem insertDesc_perm {α : Type} (a : α × ℤ) (l : List (α × ℤ)) :
    List.Perm (insertDesc a l) (a :: l) := by
  induction l with
  | nil => exact List.Perm.refl _
  | cons b t ih =>
    unfold insertDesc
    split
    · exact List.Perm.refl _
    · exact (ih.cons b).trans (List.Perm.swap a b t)

theorem sortScoresDesc_perm {α : Type} (l : List (α × ℤ)) :
    List.Perm (sortScoresDesc l) l := by
  induction l with
  | nil => exact List.Perm.refl _
  | cons a t ih => exact (insertDesc_perm a (sortScoresDesc t)).trans (ih.cons a)

theorem insertDesc_pairwise {α : Type} (a : α × ℤ) (l : List (α × ℤ))
    (h : l.Pairwise (fun x y => y.2 ≤ x.2)) :
    (insertDesc a l).Pairwise (fun x y => y.2 ≤ x.2) := by
  induction l with
  | nil => simp [insertDesc]
  | cons b t ih =>
    rcases List.pairwise_cons.mp h with ⟨hb, ht⟩
    unfold insertDesc
    split
    · rename_i hba
      refine List.pairwise_cons.mpr ⟨?_, h⟩
      intro x hx
      rcases List.mem_cons.mp hx with hxb | hxt
      · exact hxb ▸ hba
      · exact le_trans (hb x hxt) hba
    · rename_i hba
      refine List.pairwise_cons.mpr ⟨?_, ih ht⟩
      intro x hx
      rcases List.mem_cons.mp ((insertDesc_perm a t).mem_iff.mp hx) with hxa | hxt
      · exact hxa ▸ le_of_lt (not_le.mp hba)
      · exact hb x hxt

theorem sortScoresDesc_pairwise {α : Type} (l : List (α × ℤ)) :
    (sortScoresDesc l).Pairwise (fun x y => y.2 ≤ x.2) := by
  induction l with
  | nil => simp [sortScoresDesc]
  | cons a t ih => exact insertDesc_pairwise a (sortScoresDesc t) ih

theorem filter_insertDesc {α : Type} (a : α × ℤ) (l : List (α × ℤ)) (v : ℤ) :
    (insertDesc a l).filter (fun x => x.2 == v) =
      if a.2 = v then a :: l.filter (fun x => x.2 == v)
      else l.filter (fun x => x.2 == v) := by
  induction l with
  | nil => by_cases h : a.2 = v <;> simp [insertDesc, h]
  | cons b t ih =>
    unfold insertDesc
    split
    · rename_i hba
      by_cases h : a.2 = v <;> simp [List.filter_cons, h]
    · rename_i hba
      have hab : a.2 < b.2 := not_le.mp hba
      by_cases h : a.2 = v
      · have hbv : (b.2 == v) = false := by simp; omega
        simp [List.filter_cons, hbv, ih, h]
      · simp only [List.filter_cons, ih, if_neg h]

theorem sortScoresDesc_filter {α : Type} (l : List (α × ℤ)) (v : ℤ) :
    (sortScoresDesc l).filter (fun x => x.2 == v) = l.filter (fun x => x.2 == v) := by
  induction l with
  | nil => rfl
  | cons a t ih =>
    show (insertDesc a (sortScoresDesc t)).filter _ = _
    rw [filter_insertDesc]
    by_cases h : a.2 = v
    · simp [List.filter_cons, h, ih]
    · simp [List.filter_cons, h, ih]

theorem pyMax_cons {α : Type} (x y : α × ℤ) (l : List (α × ℤ)) :
    pyMax x (y :: l) = if x.2 < y.2 then pyMax y l else pyMax x l := by
  by_cases h : x.2 < y.2 <;> simp [pyMax, h]

theorem pyMax_acc_le {α : Type} (l : List (α × ℤ)) :
    ∀ (x : α × ℤ), x.2 ≤ (pyMax x l).2 := by
  induction l with
  | nil => intro x; exact le_refl _
  | cons y t ih =>
    intro x
    rw [pyMax_cons]
    by_cases h : x.2 < y.2
    · rw [if_pos h]; exact le_of_lt (lt_of_lt_of_le h (ih y))
    · rw [if_neg h]; exact ih x

theorem pyMax_shift {α : Type} (l : List (α × ℤ)) :
    ∀ (x y : α × ℤ), y.2 ≤ x.2 →
      pyMax x l = if x.2 < (pyMax y l).2 then pyMax y l else x := by
  induction l with
  | nil =>
    intro x y h
    simp only [pyMax, List.foldl_nil]
    rw [if_neg (not_lt.mpr h)]
  | cons z t ih =>
    intro x y h
    rw [pyMax_cons, pyMax_cons]
    by_cases hxz : x.2 < z.2
    · rw [if_pos hxz, if_pos (lt_of_le_of_lt h hxz)]
      have hz := pyMax_acc_le t z
      rw [if_pos (lt_of_lt_of_le hxz hz)]
    · rw [if_neg hxz]
      by_cases hyz : y.2 < z.2
      · rw [if_pos hyz]
        exact ih x z (not_lt.mp hxz)
      · rw [if_neg hyz]
        exact ih x y h

theorem sortScoresDesc_cons_head {α : Type} (l : List (α × ℤ)) :
    ∀ (x : α × ℤ), (sortScoresDesc (x :: l)).head? = some (pyMax x l) := by
  induction l with
  | nil => intro x; rfl
  | cons y t ih =>
    intro x
    show (insertDesc x (sortScoresDesc (y :: t))).head? = _
    have hy := ih y
    rcases hs : sortScoresDesc (y :: t) with _ | ⟨m, s⟩
    · rw [hs] at hy; simp at hy
    · rw [hs] at hy
      have hm : m = pyMax y t := by simpa using hy
      subst hm
      rw [pyMax_cons]
      unfold insertDesc
      by_cases hle : (pyMax y t).2 ≤ x.2
      · rw [if_pos hle]
        have hxy : ¬ x.2 < y.2 := by
          intro hxy
          exact absurd (lt_of_lt_of_le hxy (pyMax_acc_le t y)) (not_lt.mpr hle)
        rw [if_neg hxy]
        have := pyMax_shift t x y (by omega)
        rw [this, if_neg (not_lt.mpr hle)]
        rfl
      · rw [if_neg hle]
        simp only [List.head?_cons]
        by_cases hxy : x.2 < y.2
        · rw [if_pos hxy]
        · rw [if_neg hxy]
          have := pyMax_shift t x y (not_lt.mp hxy)
          rw [this, if_pos (not_le.mp hle)]

/-! ### Accumulation and validity lemmas -/

theorem foldl_add_eq_sum {β : Type} (f : β → ℕ) :
    ∀ (l : List β) (acc : ℕ), l.foldl (fun a x => a + f x) acc = acc + (l.map f).sum := by
  intro l
  induction l with
  | nil => intro acc; simp
  | cons x t ih =>
    intro acc
    simp only [List.foldl_cons, List.map_cons, List.sum_cons, ih]
    omega

theorem hollandTotal_eq_sum (r : Responses) (qs : List ℕ) :
    hollandTotal r qs = (qs.map (getResp r)).sum := by
  have h := foldl_add_eq_sum (getResp r) qs 0
  simpa [hollandTotal] using h

theorem gardnerTypeSum_eq_sum (r : Responses) (t : String) :
    gardnerTypeSum r t =
      ((gardnerQuestionTypes.filter (fun p => p.2 == t)).map
        (fun p => (r.lookup p.1).getD 0)).sum := by
  have h := foldl_add_eq_sum (fun p : ℕ × String => (r.lookup p.1).getD 0)
    (gardnerQuestionTypes.filter (fun p => p.2 == t)) 0
  simpa [gardnerTypeSum] using h

theorem holland_valid_resp (r : Responses) (hv : isValidHolland r = true) (q : ℕ)
    (h1 : 1 ≤ q) (h2 : q ≤ 36) :
    ∃ v, r.lookup q = some v ∧ 1 ≤ v ∧ v ≤ 5 := by
  unfold isValidHolland at hv
  rw [List.all_eq_true] at hv
  have h := hv q (List.mem_range'_1.mpr ⟨h1, by omega⟩)
  revert h
  cases hlu : r.lookup q with
  | none => intro h; simp at h
  | some v => intro h; exact ⟨v, rfl, of_decide_eq_true h⟩

theorem holland_getResp_bounds (r : Responses) (hv : isValidHolland r = true) (q : ℕ)
    (h1 : 1 ≤ q) (h2 : q ≤ 36) :
    1 ≤ getResp r q ∧ getResp r q ≤ 5 := by
  obtain ⟨v, hl, hb⟩ := holland_valid_resp r hv q h1 h2
  simp [getResp, hl]
  omega

theorem holland_respValue_eq_getResp (r : Responses) (hv : isValidHolland r = true) (q : ℕ)
    (h1 : 1 ≤ q) (h2 : q ≤ 36) :
    respValue r q = getResp r q := by
  obtain ⟨v, hl, hb⟩ := holland_valid_resp r hv q h1 h2
  simp [respValue, getResp, hl]

theorem sum_getResp_le (r : Responses) (hv : isValidHolland r = true) :
    ∀ qs : List ℕ, (∀ q ∈ qs, 1 ≤ q ∧ q ≤ 36) →
      (qs.map (getResp r)).sum ≤ 5 * qs.length := by
  intro qs
  induction qs with
  | nil => intro h; simp
  | cons q t ih =>
    intro h
    simp only [List.map_cons, List.sum_cons, List.length_cons]
    have hb := holland_getResp_bounds r hv q (h q (by simp)).1 (h q (by simp)).2
    have ht := ih (fun x hx => h x (by simp [hx]))
    omega

/-! ### Lookup in completed response sets -/

theorem lookup_map_range (f : ℕ → ℕ) :
    ∀ (n s q : ℕ), List.lookup q ((List.range' s n).map (fun i => (i, f i))) =
      if s ≤ q ∧ q < s + n then some (f q) else none := by
  intro n
  induction n with
  | zero =>
    intro s q
    rw [if_neg (by omega)]
    rfl
  | succ n ih =>
    intro s q
    show List.lookup q ((s, f s) :: (List.range' (s + 1) n).map (fun i => (i, f i))) = _
    by_cases hqs : q = s
    · subst hqs
      rw [if_pos ⟨le_refl q, by omega⟩]
      simp [List.lookup]
    · have hqs' : (q == s) = false := beq_false_of_ne hqs
      simp only [List.lookup, hqs']
      rw [ih (s + 1) q]
      split_ifs with ha hb
      · rfl
      · omega
      · omega
      · rfl

theorem getResp_hollandDefaulted (r : Responses) (q : ℕ) (h1 : 1 ≤ q) (h2 : q ≤ 36) :
    getResp (hollandDefaulted r) q = getResp r q := by
  unfold hollandDefaulted
  show (List.lookup q ((List.range' 1 36).map (fun i => (i, getResp r i)))).getD 1 = _
  rw [lookup_map_range (getResp r) 36 1 q, if_pos ⟨h1, by omega⟩]
  rfl

theorem lookup_gardnerDefaulted (r : Responses) (q : ℕ) (h1 : 1 ≤ q) (h2 : q ≤ 24) :
    ((gardnerDefaulted r).lookup q).getD 0 = (r.lookup q).getD 0 := by
  unfold gardnerDefaulted
  rw [lookup_map_range (fun i => (r.lookup i).getD 0) 24 1 q, if_pos ⟨h1, by omega⟩]
  rfl

/-! ### Rank selection on lists with at least two distinct labels -/

theorem rank_two_distinct (l : List (String × ℤ)) (hn : (l.map Prod.fst).Nodup)
    (hlen : 2 ≤ l.length) :
    ∃ p q rest, sortScoresDesc l = p :: q :: rest ∧
      (∀ fb, selectPrimary fb l = p.1) ∧
      (∀ fb, selectSecondary fb l = q.1) ∧ p.1 ≠ q.1 := by
  have hperm := sortScoresDesc_perm l
  have hlen2 : 2 ≤ (sortScoresDesc l).length := by rw [hperm.length_eq]; exact hlen
  rcases hs : sortScoresDesc l with _ | ⟨p, _ | ⟨q, rest⟩⟩
  · rw [hs] at hlen2; simp at hlen2
  · rw [hs] at hlen2; simp at hlen2
  · refine ⟨p, q, rest, rfl, ?_, ?_, ?_⟩
    · intro fb; unfold selectPrimary; rw [hs]
    · intro fb; unfold selectSecondary; rw [hs]
    · have hnd : ((sortScoresDesc l).map Prod.fst).Nodup :=
        ((hperm.map Prod.fst).nodup_iff).mpr hn
      rw [hs] at hnd
      simp only [List.map_cons, List.nodup_cons, List.mem_cons] at hnd
      intro he
      exact hnd.1 (Or.inl he)

theorem holland_scores_keys (r : Responses) :
    (calculate_holland_scores r).map Prod.fst = ["R", "I", "A", "S", "E", "C"] := rfl

theorem gardner_scores_keys (r : Responses) :
    (calculate_gardner_scores r).map Prod.fst = intelligence_types := rfl

/-! ### Per-category percentage formulas -/

theorem holland_category_percent (r : Responses) (hv : isValidHolland r = true)
    (q1 q2 q3 q4 q5 q6 : ℕ) (hq : ∀ q ∈ [q1, q2, q3, q4, q5, q6], 1 ≤ q ∧ q ≤ 36) :
    hollandPercent (hollandTotal r [q1, q2, q3, q4, q5, q6]) =
      round (((respValue r q1 + respValue r q2 + respValue r q3 + respValue r q4 +
        respValue r q5 + respValue r q6 : ℕ) : ℚ) / 30 * 100) := by
  have e1 := holland_respValue_eq_getResp r hv q1 (hq q1 (by simp)).1 (hq q1 (by simp)).2
  have e2 := holland_respValue_eq_getResp r hv q2 (hq q2 (by simp)).1 (hq q2 (by simp)).2
  have e3 := holland_respValue_eq_getResp r hv q3 (hq q3 (by simp)).1 (hq q3 (by simp)).2
  have e4 := holland_respValue_eq_getResp r hv q4 (hq q4 (by simp)).1 (hq q4 (by simp)).2
  have e5 := holland_respValue_eq_getResp r hv q5 (hq q5 (by simp)).1 (hq q5 (by simp)).2
  have e6 := holland_respValue_eq_getResp r hv q6 (hq q6 (by simp)).1 (hq q6 (by simp)).2
  have hsum : hollandTotal r [q1, q2, q3, q4, q5, q6] =
      respValue r q1 + respValue r q2 + respValue r q3 + respValue r q4 +
        respValue r q5 + respValue r q6 := by
    rw [hollandTotal_eq_sum, e1, e2, e3, e4, e5, e6]
    simp only [List.map_cons, List.map_nil, List.sum_cons, List.sum_nil]
    omega
  rw [hsum, hollandPercent_eq_round]

theorem gardner_category_percent (r : Responses) (a b c : ℕ) (t : String)
    (hfil : gardnerQuestionTypes.filter (fun p => p.2 == t) = [(a, t), (b, t), (c, t)]) :
    gardnerNormalize (gardnerTypeSum r t) (gardnerTypeCount t * 5) =
      round (((respValue r a + respValue r b + respValue r c : ℕ) : ℚ) / 15 * 100) := by
  have hc : gardnerTypeCount t * 5 = 15 := by rw [gardnerTypeCount, hfil]; rfl
  have hs : gardnerTypeSum r t = respValue r a + respValue r b + respValue r c := by
    rw [gardnerTypeSum_eq_sum, hfil]
    simp only [List.map_cons, List.map_nil, List.sum_cons, List.sum_nil, respValue]
    omega
  rw [hc, hs, gardnerNormalize_fifteen_eq_round]

/-- C1: on every complete Holland submission (36 responses, each in 1..5),
every category percentage equals round((category sum / 30) * 100) with the
question ranges 1-6 R, 7-12 I, 13-18 A, 19-24 S, 25-30 E, 31-36 C; on
every complete Gardner-24 submission (24 responses in 1..5), every
category percentage equals round((category sum / 15) * 100). -/
theorem C1_percentage_formula :
    (∀ r, isValidHolland r = true → calculate_holland_scores r = hollandSpecScores r) ∧
    (∀ r, isValidGardner r = true → calculate_gardner_scores r = gardnerSpecScores r) := by
  constructor
  · intro r hv
    simp only [calculate_holland_scores, hollandMapping, List.map_cons, List.map_nil,
      hollandSpecScores]
    rw [holland_category_percent r hv 1 2 3 4 5 6 (by decide),
      holland_category_percent r hv 7 8 9 10 11 12 (by decide),
      holland_category_percent r hv 13 14 15 16 17 18 (by decide),
      holland_category_percent r hv 19 20 21 22 23 24 (by decide),
      holland_category_percent r hv 25 26 27 28 29 30 (by decide),
      holland_category_percent r hv 31 32 33 34 35 36 (by decide)]
  · intro r hv
    simp only [calculate_gardner_scores, intelligence_types, List.map_cons, List.map_nil,
      gardnerSpecScores]
    rw [gardner_category_percent r 1 2 3 "linguistic" rfl,
      gardner_category_percent r 4 5 6 "logical" rfl,
      gardner_category_percent r 7 8 9 "spatial" rfl,
      gardner_category_percent r 10 11 12 "bodily" rfl,
      gardner_category_percent r 13 14 15 "musical" rfl,
      gardner_category_percent r 16 17 18 "interpersonal" rfl,
      gardner_category_percent r 19 20 21 "intrapersonal" rfl,
      gardner_category_percent r 22 23 24 "naturalist" rfl]

/-- Witness for C1 at concrete complete submissions (every answer 3). -/
theorem C1_percentage_formula_witness :
    isValidHolland hollandAll3 = true ∧ isValidGardner gardnerAll3 = true ∧
    calculate_holland_scores hollandAll3 = hollandSpecScores hollandAll3 ∧
    calculate_gardner_scores gardnerAll3 = gardnerSpecScores gardnerAll3 :=
  ⟨by decide, by decide, C1_percentage_formula.1 hollandAll3 (by decide),
    C1_percentage_formula.2 gardnerAll3 (by decide)⟩

/-- C2 counterexample: the Holland scorer does not fail on a response set
with question 1 absent; it produces numeric percentages, and exactly the
percentages of the set completed with the substitute value 1 for question
1 (Realistic percentage round((1+5+5+5+5+5)/30*100) = 87). No
MissingResponseError exists in the source. -/
theorem C2_counterexample :
    hollandMissingQ1.lookup 1 = none ∧
    (calculate_holland_scores hollandMissingQ1).lookup "R" = some 87 ∧
    calculate_holland_scores hollandMissingQ1 =
      calculate_holland_scores ((1, 1) :: hollandMissingQ1) := by decide

/-- C2 amended: a missing response is silently defaulted, never an error:
scoring any partial response set gives exactly the scores of the completed
set in which every absent Holland answer is replaced by 1 and every absent
Gardner-24 answer is replaced by 0. -/
theorem C2_missing_response_defaulted (r : Responses) :
    calculate_holland_scores r = calculate_holland_scores (hollandDefaulted r) ∧
    calculate_gardner_scores r = calculate_gardner_scores (gardnerDefaulted r) := by
  constructor
  · have htot : ∀ qs : List ℕ, (∀ q ∈ qs, 1 ≤ q ∧ q ≤ 36) →
        hollandTotal (hollandDefaulted r) qs = hollandTotal r qs := by
      intro qs h
      rw [hollandTotal_eq_sum, hollandTotal_eq_sum]
      apply congrArg
      apply List.map_congr_left
      intro a ha
      exact getResp_hollandDefaulted r a (h a ha).1 (h a ha).2
    simp only [calculate_holland_scores, hollandMapping, List.map_cons, List.map_nil]
    rw [htot [1, 2, 3, 4, 5, 6] (by decide),
      htot [7, 8, 9, 10, 11, 12] (by decide),
      htot [13, 14, 15, 16, 17, 18] (by decide),
      htot [19, 20, 21, 22, 23, 24] (by decide),
      htot [25, 26, 27, 28, 29, 30] (by decide),
      htot [31, 32, 33, 34, 35, 36] (by decide)]
  · have hts : ∀ t, gardnerTypeSum (gardnerDefaulted r) t = gardnerTypeSum r t := by
      intro t
      rw [gardnerTypeSum_eq_sum, gardnerTypeSum_eq_sum]
      apply congrArg
      apply List.map_congr_left
      intro p hp
      have hmem : p ∈ gardnerQuestionTypes := List.mem_of_mem_filter hp
      have hall : ∀ p ∈ gardnerQuestionTypes, 1 ≤ p.1 ∧ p.1 ≤ 24 := by decide
      exact lookup_gardnerDefaulted r p.1 (hall p hmem).1 (hall p hmem).2
    unfold calculate_gardner_scores
    apply List.map_congr_left
    intro t ht
    rw [hts t]

/-- C5 counterexample: at max_possible = 0 the Gardner percentage step
produces the numeric percentage 0 (here with raw sum 7); it raises no
InvalidInstrumentConfigError, which does not exist in the source. -/
theorem C5_counterexample : gardnerNormalize 7 0 = 0 := by decide

/-- C5 amended: when max_possible is 0 the normalizer returns the numeric
percentage 0 for that category; the guard max_possible > 0 prevents a
division fault, and no error is raised. -/
theorem C5_zero_max_yields_zero : ∀ total : ℕ, gardnerNormalize total 0 = 0 := by
  intro t
  simp [gardnerNormalize]

/-- C7: on the Holland input with q1-q6 = 5 and all other responses 1, the
Realistic percentage is 100, every other category percentage is 20, and
the selected primary type is R (whatever the fallback label). -/
theorem C7_holland_scenario :
    calculate_holland_scores hollandRMaxInput =
      [("R", 100), ("I", 20), ("A", 20), ("S", 20), ("E", 20), ("C", 20)] ∧
    (∀ fb : String, selectPrimary fb (calculate_holland_scores hollandRMaxInput) = "R") := by
  refine ⟨by decide, ?_⟩
  intro fb
  unfold selectPrimary
  rw [show sortScoresDesc (calculate_holland_scores hollandRMaxInput) =
    [("R", 100), ("I", 20), ("A", 20), ("S", 20), ("E", 20), ("C", 20)] from by decide]

/-- C8: the modelled Gardner-41 map has the eight categories in the
declared order with sizes 5, 5, 6, 5, 4, 5, 5, 6 partitioning the indices
1..41, and on the input with the linguistic questions 1, 10, 17, 25, 34
all 3 and the other 36 responses 0, the linguistic percentage is 100,
every other category percentage is 0, and the primary type is linguistic
(whatever the fallback label). -/
theorem C8_gardner41_scenario :
    gardner41Categories.map Prod.fst =
      ["linguistic", "musical", "bodily", "interpersonal", "logical",
       "naturalist", "spatial", "intrapersonal"] ∧
    gardner41Categories.map (fun p => p.2.length) = [5, 5, 6, 5, 4, 5, 5, 6] ∧
    List.Perm (gardner41Categories.map Prod.snd).flatten (List.range' 1 41) ∧
    gardner41Scores gardner41LinInput =
      [("linguistic", 100), ("musical", 0), ("bodily", 0), ("interpersonal", 0),
       ("logical", 0), ("naturalist", 0), ("spatial", 0), ("intrapersonal", 0)] ∧
    (∀ fb : String, selectPrimary fb (gardner41Scores gardner41LinInput) = "linguistic") := by
  refine ⟨by decide, by decide, by decide, by decide, ?_⟩
  intro fb
  unfold selectPrimary
  rw [show sortScoresDesc (gardner41Scores gardner41LinInput) =
    [("linguistic", 100), ("musical", 0), ("bodily", 0), ("interpersonal", 0),
     ("logical", 0), ("naturalist", 0), ("spatial", 0), ("intrapersonal", 0)] from by decide]

theorem holland_scores_length (r : Responses) :
    (calculate_holland_scores r).length = 6 := by
  simp [calculate_holland_scores, hollandMapping]

theorem gardner_scores_length (r : Responses) :
    (calculate_gardner_scores r).length = 8 := by
  simp [calculate_gardner_scores, intelligence_types]

/-- C3: the rank selector is exactly the stable descending sort by
percentage followed by taking ranks 0 and 1: the sorted list is a
permutation of the score list, is descending in the percentages, preserves
the relative (declaration) order of entries with any given equal
percentage, and primary and secondary are its first and second entries. -/
theorem C3_rank_selector (l : List (String × ℤ)) (fb fb2 : String) :
    List.Perm (sortScoresDesc l) l ∧
    (sortScoresDesc l).Pairwise (fun x y => y.2 ≤ x.2) ∧
    (∀ v : ℤ, (sortScoresDesc l).filter (fun x => x.2 == v) =
      l.filter (fun x => x.2 == v)) ∧
    (∀ p q rest, sortScoresDesc l = p :: q :: rest →
      selectPrimary fb l = p.1 ∧ selectSecondary fb2 l = q.1) := by
  refine ⟨sortScoresDesc_perm l, sortScoresDesc_pairwise l,
    fun v => sortScoresDesc_filter l v, ?_⟩
  intro p q rest hs
  constructor
  · unfold selectPrimary; rw [hs]
  · unfold selectSecondary; rw [hs]

/-- Witness for C3 at a concrete two-way tie: both entries carry 50, and
primary and secondary come out in declaration order R before I. -/
theorem C3_rank_selector_witness :
    List.Perm (sortScoresDesc [(("R" : String), (50 : ℤ)), ("I", 50)])
      [("R", 50), ("I", 50)] ∧
    selectPrimary "X" [(("R" : String), (50 : ℤ)), ("I", 50)] = "R" ∧
    selectSecondary "Y" [(("R" : String), (50 : ℤ)), ("I", 50)] = "I" := by
  refine ⟨(C3_rank_selector [("R", 50), ("I", 50)] "X" "Y").1, ?_, ?_⟩
  · exact ((C3_rank_selector [("R", 50), ("I", 50)] "X" "Y").2.2.2
      ("R", 50) ("I", 50) [] (by decide)).1
  · exact ((C3_rank_selector [("R", 50), ("I", 50)] "X" "Y").2.2.2
      ("R", 50) ("I", 50) [] (by decide)).2

/-- C4: on every complete Holland submission every category percentage
lies in the interval from 0 to 100, and whenever the six percentages are
not all equal the selected primary type differs from the secondary type. -/
theorem C4_range_and_distinct (r : Responses) (hv : isValidHolland r = true) :
    (∀ e ∈ calculate_holland_scores r, 0 ≤ e.2 ∧ e.2 ≤ 100) ∧
    ((¬ ∀ e1 ∈ calculate_holland_scores r, ∀ e2 ∈ calculate_holland_scores r,
        e1.2 = e2.2) →
      (submit_holland_questionnaire r).2.1 ≠ (submit_holland_questionnaire r).2.2) := by
  constructor
  · intro e he
    simp only [calculate_holland_scores, List.mem_map] at he
    obtain ⟨p, hp, rfl⟩ := he
    have hfacts : ∀ p ∈ hollandMapping, (∀ q ∈ p.2, 1 ≤ q ∧ q ≤ 36) ∧ p.2.length = 6 := by
      decide
    have hple : hollandTotal r p.2 ≤ 30 := by
      rw [hollandTotal_eq_sum]
      have := sum_getResp_le r hv p.2 (hfacts p hp).1
      rw [(hfacts p hp).2] at this
      omega
    exact hollandPercent_range _ hple
  · intro hne
    obtain ⟨p, q, rest, hs, hp, hq, hpq⟩ :=
      rank_two_distinct (calculate_holland_scores r)
        (by rw [holland_scores_keys]; decide)
        (by rw [holland_scores_length]; omega)
    show selectPrimary "R" (calculate_holland_scores r) ≠
      selectSecondary "I" (calculate_holland_scores r)
    rw [hp "R", hq "I"]
    exact hpq

/-- Witness for C4 at a concrete complete submission (q1-q6 = 5, the rest
3): percentages in range, primary distinct from secondary. -/
theorem C4_range_and_distinct_witness :
    isValidHolland hollandC4Input = true ∧
    (∀ e ∈ calculate_holland_scores hollandC4Input, 0 ≤ e.2 ∧ e.2 ≤ 100) ∧
    (submit_holland_questionnaire hollandC4Input).2.1 ≠
      (submit_holland_questionnaire hollandC4Input).2.2 :=
  ⟨by decide, (C4_range_and_distinct hollandC4Input (by decide)).1,
    (C4_range_and_distinct hollandC4Input (by decide)).2 (by decide)⟩

/-- C6: at every category maximum of every instrument (30 for Holland, 15
for every Gardner-24 category, 15, 18 and 12 for the Gardner-41 category
sizes 5, 6 and 4), the computed percentage equals the rounding of
(sum / max) * 100 to the nearest integer with ties away from zero, for
every raw sum: at these maxima an exact tie never occurs, so the
round-half-to-even of the host language and round-half-away-from-zero
agree everywhere. -/
theorem C6_rounding_semantics :
    (∀ t : ℕ, hollandPercent t = roundHalfAwayFromZero ((t : ℚ) / 30 * 100)) ∧
    (∀ t : ℕ, gardnerNormalize t 15 = roundHalfAwayFromZero ((t : ℚ) / 15 * 100)) ∧
    (∀ t : ℕ, gardner41Percent t 15 = roundHalfAwayFromZero ((t : ℚ) / 15 * 100) ∧
      gardner41Percent t 18 = roundHalfAwayFromZero ((t : ℚ) / 18 * 100) ∧
      gardner41Percent t 12 = roundHalfAwayFromZero ((t : ℚ) / 12 * 100)) := by
  refine ⟨fun t => ?_, fun t => ?_, fun t => ⟨?_, ?_, ?_⟩⟩
  · rw [roundHalfAwayFromZero_of_nonneg _ (by positivity)]
    exact hollandPercent_eq_round t
  · rw [roundHalfAwayFromZero_of_nonneg _ (by positivity)]
    exact gardnerNormalize_fifteen_eq_round t
  · rw [roundHalfAwayFromZero_of_nonneg _ (by positivity)]
    exact gardner41Percent_eq_round_fifteen t
  · rw [roundHalfAwayFromZero_of_nonneg _ (by positivity)]
    exact gardner41Percent_eq_round_eighteen t
  · rw [roundHalfAwayFromZero_of_nonneg _ (by positivity)]
    exact gardner41Percent_eq_round_twelve t

/-- C9: every submission yields exactly 6 Holland pairs and 8 Gardner
pairs, the sorted list always has at least two entries, so the fallback
labels of the views are never used, and primary and secondary are always
distinct labels, even when all percentages tie. -/
theorem C9_fallbacks_unreachable (r : Responses) :
    (calculate_holland_scores r).length = 6 ∧
    (calculate_gardner_scores r).length = 8 ∧
    (∃ p q rest, sortScoresDesc (calculate_holland_scores r) = p :: q :: rest ∧
      (∀ fb, selectPrimary fb (calculate_holland_scores r) = p.1) ∧
      (∀ fb, selectSecondary fb (calculate_holland_scores r) = q.1) ∧
      (submit_holland_questionnaire r).2.1 = p.1 ∧
      (submit_holland_questionnaire r).2.2 = q.1 ∧ p.1 ≠ q.1) ∧
    (∃ p q rest, sortScoresDesc (calculate_gardner_scores r) = p :: q :: rest ∧
      (∀ fb, selectPrimary fb (calculate_gardner_scores r) = p.1) ∧
      (∀ fb, selectSecondary fb (calculate_gardner_scores r) = q.1) ∧
      (submit_gardner_questionnaire r).2.1 = p.1 ∧
      (submit_gardner_questionnaire r).2.2 = q.1 ∧ p.1 ≠ q.1) := by
  refine ⟨holland_scores_length r, gardner_scores_length r, ?_, ?_⟩
  · obtain ⟨p, q, rest, hs, hp, hq, hpq⟩ :=
      rank_two_distinct (calculate_holland_scores r)
        (by rw [holland_scores_keys]; decide)
        (by rw [holland_scores_length]; omega)
    exact ⟨p, q, rest, hs, hp, hq, hp "R", hq "I", hpq⟩
  · obtain ⟨p, q, rest, hs, hp, hq, hpq⟩ :=
      rank_two_distinct (calculate_gardner_scores r)
        (by rw [gardner_scores_keys]; decide)
        (by rw [gardner_scores_length]; omega)
    exact ⟨p, q, rest, hs, hp, hq, hp "linguistic", hq "logical", hpq⟩

/-- C10: for every stored HollandTest record, highest_score_type is the
first character of holland_code: both resolve ties for the highest score
to the category earliest in the fixed order R, I, A, S, E, C. -/
theorem C10_highest_vs_code (r i a s e c : ℤ) :
    (holland_code r i a s e c).data.head? = some (highest_score_type r i a s e c) := by
  have h : (sortScoresDesc (hollandScorePairs r i a s e c)).head? =
      some (pyMax ('R', r) [('I', i), ('A', a), ('S', s), ('E', e), ('C', c)]) :=
    sortScoresDesc_cons_head _ _
  unfold holland_code highest_score_type
  show ((((sortScoresDesc (hollandScorePairs r i a s e c)).take 3).map Prod.fst)).head? =
    some (pyMax ('R', r) [('I', i), ('A', a), ('S', s), ('E', e), ('C', c)]).1
  rcases hs : sortScoresDesc (hollandScorePairs r i a s e c) with _ | ⟨m, tl⟩
  · rw [hs] at h; simp at h
  · rw [hs] at h
    simp only [List.head?_cons, Option.some.injEq] at h
    simp [List.take_succ_cons, h]
